import Mathlib

/-!
Verification development for the copy-trading bot: shallow embedding of the
price resolver, execution clients, strategy engine and PnL accountant, with
theorems settling the specification claims.  JavaScript numbers are modelled
as exact rationals (ℚ), millisecond timestamps as integers (ℤ), and fallible
operations as `Except String`.
-/

namespace Ultimo

/-! ## Rounding helpers

`Number(x.toFixed(f))` picks the integer numerator closest to `x * 10^f`,
resolving ties towards the larger numerator, i.e. `⌊x * 10^f + 1/2⌋ / 10^f`. -/

def round2 (x : ℚ) : ℚ := (⌊x * 100 + 1/2⌋ : ℚ) / 100

def round6 (x : ℚ) : ℚ := (⌊x * 1000000 + 1/2⌋ : ℚ) / 1000000

/-! ## PnL accountant (pnlCalculator.js, improved variant)

`PnLCalculator.calculatePnL(trade)`: destructures the trade with defaults
`executor='pumpportal'`, `slippage=0`, `networkFee=0.000005`, `priorityFee=0`,
throws on missing (falsy) or non-positive fields, picks venue fees by
executor, then applies sell fee, slippage and fixed network/priority fees in
that order before computing the net PnL. -/

structure PnLTrade where
  entryPrice : ℚ
  exitPrice : ℚ
  tokenAmount : ℚ
  solSpent : ℚ
  executor : String := "pumpportal"
  slippage : ℚ := 0
  networkFee : ℚ := 5 / 1000000
  priorityFee : ℚ := 0
  deriving Repr, DecidableEq

structure PnLResult where
  pnlSOL : ℚ
  pnlPercent : ℚ
  priceChangePercent : ℚ
  netReceived : ℚ
  totalFeeAmount : ℚ
  feeImpactPercent : ℚ
  buyFeePercent : ℚ
  sellFeePercent : ℚ
  grossValue : ℚ
  sellFeeAmount : ℚ
  valueAfterSellFee : ℚ
  valueAfterSlippage : ℚ
  totalNetworkFee : ℚ
  deriving Repr, DecidableEq

def calculatePnL (t : PnLTrade) : Except String PnLResult :=
  -- `if (!entryPrice || ...)` rejects falsy (zero) fields
  if t.entryPrice = 0 ∨ t.exitPrice = 0 ∨ t.tokenAmount = 0 ∨ t.solSpent = 0 then
    .error "Missing required fields for PnL calculation"
  else if t.tokenAmount ≤ 0 ∨ t.solSpent ≤ 0 ∨ t.entryPrice ≤ 0 ∨ t.exitPrice ≤ 0 then
    .error "All values must be positive"
  else
    let buyFeeTotal : ℚ := if t.executor = "pumpportal" then 7/400
      else if t.executor = "jupiter" then 3/1000 else 1/100
    let sellFeeTotal : ℚ := if t.executor = "pumpportal" then 7/400
      else if t.executor = "jupiter" then 3/1000 else 1/100
    let grossValue := t.tokenAmount * t.exitPrice
    let sellFeeAmount := grossValue * sellFeeTotal
    let valueAfterSellFee := grossValue - sellFeeAmount
    let valueAfterSlippage :=
      if 1/10000 < |t.slippage| then valueAfterSellFee - valueAfterSellFee * |t.slippage|
      else valueAfterSellFee
    let totalNetworkFee := t.networkFee + t.priorityFee
    let netReceived := valueAfterSlippage - totalNetworkFee
    let pnlSOL := netReceived - t.solSpent
    let pnlPercent := pnlSOL / t.solSpent * 100
    let priceChangePercent := (t.exitPrice - t.entryPrice) / t.entryPrice * 100
    let totalFeeAmount := t.solSpent * buyFeeTotal + sellFeeAmount + totalNetworkFee
    let feeImpactPercent := totalFeeAmount / t.solSpent * 100
    .ok
      { pnlSOL := round6 pnlSOL
        pnlPercent := round2 pnlPercent
        priceChangePercent := round2 priceChangePercent
        netReceived := round6 netReceived
        totalFeeAmount := round6 totalFeeAmount
        feeImpactPercent := round2 feeImpactPercent
        buyFeePercent := buyFeeTotal
        sellFeePercent := sellFeeTotal
        grossValue := grossValue
        sellFeeAmount := sellFeeAmount
        valueAfterSellFee := valueAfterSellFee
        valueAfterSlippage := valueAfterSlippage
        totalNetworkFee := totalNetworkFee }

/-! ## Bonding-curve readers

`CurveState` is the parsed content of a Pump.fun bonding-curve account:
the five little-endian u64 fields at offsets 0x08..0x28 and the completion
byte at 0x30. -/

structure CurveState where
  virtualTokenReserves : ℕ
  virtualSolReserves : ℕ
  realTokenReserves : ℕ
  realSolReserves : ℕ
  tokenTotalSupply : ℕ
  complete : Bool
  deriving Repr, DecidableEq

def INITIAL_REAL_TOKEN_RESERVES : ℕ := 793100000000000

/-- Bonding progress `1 − Number((real*10000n)/INITIAL)/10000` with BigInt (floor) division,
`0` when `realTokenReserves` is not below the initial reserve. -/
def bondingProgressOf (s : CurveState) : ℚ :=
  if s.realTokenReserves < INITIAL_REAL_TOKEN_RESERVES then
    1 - ((s.realTokenReserves * 10000 / INITIAL_REAL_TOKEN_RESERVES : ℕ) : ℚ) / 10000
  else 0

structure RawQuote where
  price : Option ℚ
  bondingProgress : ℚ
  graduated : Bool
  deriving Repr, DecidableEq

/-- Raw reader `PumpPriceReaderRaw.getPrice`, from the point where the account bytes have
been parsed into a `CurveState`.  `none` models the `null` returned when the
reader throws (zero reserves, non-finite price). -/
def rawGetPrice (s : CurveState) : Option RawQuote :=
  if s.complete then
    some { price := none, bondingProgress := 1, graduated := true }
  else if s.virtualTokenReserves = 0 ∨ s.virtualSolReserves = 0 then
    none
  else
    -- numerator = virtualSolReserves * TOKEN_DECIMALS, denominator = virtualTokenReserves * SOL_DECIMALS
    let price : ℚ :=
      ((s.virtualSolReserves * 1000000 : ℕ) : ℚ) / ((s.virtualTokenReserves * 1000000000 : ℕ) : ℚ)
    if price ≤ 0 then none
    else some { price := some price, bondingProgress := bondingProgressOf s, graduated := false }

structure PumpCurveResult where
  price : ℚ
  bondingProgress : ℚ
  graduated : Bool
  deriving Repr, DecidableEq

/-- Price service `PriceService.getPumpFunPrice` (priceService.js) on a parsed account:
price `(virtualSol/1e9)/(virtualTokens/1e6)`, `graduated := complete`;
`none` models the `null` returned when a zero reserve makes it throw. -/
def psGetPumpFunPrice (s : CurveState) : Option PumpCurveResult :=
  if s.virtualTokenReserves = 0 ∨ s.virtualSolReserves = 0 then none
  else
    some
      { price := ((s.virtualSolReserves : ℚ) / 1000000000) / ((s.virtualTokenReserves : ℚ) / 1000000)
        bondingProgress := bondingProgressOf s
        graduated := s.complete }

/-! ## Price resolver (PriceService.getPrice, priceService.js)

State and environment for one instrument: the cache entry and the
failure-backoff entry are process-local maps keyed by the mint; the
environment holds what each price source would answer if queried. -/

structure Quote where
  price : Option ℚ
  source : String
  bondingProgress : Option ℚ
  graduated : Bool
  ts : ℤ
  stale : Bool := false
  error : Option String := none
  deriving Repr, DecidableEq

structure FailedEntry where
  count : ℕ
  lastAttempt : ℤ
  deriving Repr, DecidableEq

structure PSState where
  cache : Option Quote
  failed : Option FailedEntry
  deriving Repr, DecidableEq

/-- The strings `JupiterPriceService.getPrice` can attach to a usable price. -/
inductive JupSrc
  | jupiter
  | fromCache
  | cacheFallback
  deriving Repr, DecidableEq

def JupSrc.name : JupSrc → String
  | .jupiter => "jupiter"
  | .fromCache => "cache"
  | .cacheFallback => "cache-fallback"

structure PriceEnv where
  /-- Result of `getPumpFunPrice` (`none` when the account is missing or the read threw) -/
  pump : Option PumpCurveResult
  /-- A truthy Jupiter price with its source tag, when Jupiter answers -/
  jup : Option (ℚ × JupSrc)
  /-- A truthy DexScreener price, when DexScreener answers -/
  dex : Option ℚ
  deriving Repr, DecidableEq

structure GetPriceOut where
  quote : Quote
  state : PSState
  /-- Whether the call reached the source chain (so RPC/HTTP calls were made) -/
  networkUsed : Bool
  deriving Repr, DecidableEq

def skippedQuote (now : ℤ) : Quote :=
  { price := none, source := "skipped", bondingProgress := none, graduated := false
    ts := now, error := some "Too many failed attempts" }

def noSourceQuote (now : ℤ) : Quote :=
  { price := none, source := "none", bondingProgress := none, graduated := false
    ts := now, error := some "No price source available" }

/-- Whether `getPrice` would take the `pump && pump.price && !pump.graduated` branch. -/
def pumpUsable (env : PriceEnv) : Bool :=
  match env.pump with
  | some p => p.price ≠ 0 ∧ p.graduated = false
  | none => false

/-- Steps 2 and 3 of the source chain: Jupiter, then DexScreener, then record
a failed attempt and fall back to the stale cache or a null quote. -/
def resolveAfterPump (now : ℤ) (st : PSState) (env : PriceEnv) : GetPriceOut :=
  match env.jup with
  | some (price, src) =>
    let q : Quote := { price := some price, source := src.name
                       bondingProgress := none, graduated := true, ts := now }
    ⟨q, { cache := some q, failed := none }, true⟩
  | none =>
    match env.dex with
    | some price =>
      let q : Quote := { price := some price, source := "dexscreener"
                         bondingProgress := none, graduated := true, ts := now }
      ⟨q, { cache := some q, failed := none }, true⟩
    | none =>
      -- recordFailedAttempt: count := (existing count or 0) + 1, stamp now
      let failedRec : Option FailedEntry :=
        some ⟨(st.failed.map (·.count)).getD 0 + 1, now⟩
      match st.cache with
      | some c => ⟨{ c with stale := true }, { st with failed := failedRec }, true⟩
      | none => ⟨noSourceQuote now, { st with failed := failedRec }, true⟩

/-- Source chain: Pump.fun bonding curve, then Jupiter, then DexScreener, then
record a failed attempt and fall back to the stale cache or a null quote.
Entering the chain always performs network calls (the bonding-curve read). -/
def resolveSources (now : ℤ) (st : PSState) (env : PriceEnv) : GetPriceOut :=
  match env.pump with
  | some p =>
    if p.price ≠ 0 ∧ p.graduated = false then
      let q : Quote := { price := some p.price, source := "pump.fun"
                         bondingProgress := some p.bondingProgress, graduated := false, ts := now }
      ⟨q, { cache := some q, failed := none }, true⟩
    else resolveAfterPump now st env
  | none => resolveAfterPump now st env

/-- Resolution entry point `PriceService.getPrice(mint, forceFresh)` for one instrument. -/
def getPrice (forceFresh : Bool) (now : ℤ) (st0 : PSState) (env : PriceEnv) : GetPriceOut :=
  -- failure-backoff pre-check
  let pre : GetPriceOut ⊕ PSState :=
    if forceFresh then .inr st0
    else
      match st0.failed with
      | none => .inr st0
      | some f =>
        if 60000 < now - f.lastAttempt then .inr { st0 with failed := none }
        else if 3 ≤ f.count then
          match st0.cache with
          | some c => .inl ⟨c, st0, false⟩
          | none => .inl ⟨skippedQuote now, st0, false⟩
        else .inr st0
  match pre with
  | .inl out => out
  | .inr st =>
    match st.cache with
    | some c =>
      if forceFresh = false ∧ now - c.ts < 5000 then ⟨c, st, false⟩
      else resolveSources now st env
    | none => resolveSources now st env

/-! ## Strategy engine (copyStrategy.js)

`CopyStrategy` configuration as parsed from the environment, an open
position as read from the store, and the exit decision. -/

structure StrategyConfig where
  minWalletsToBuy : ℕ
  minWalletsToSell : ℕ
  takeProfitEnabled : Bool
  takeProfitPercent : ℚ
  trailingStopEnabled : Bool
  trailingStopPercent : ℚ
  stopLossEnabled : Bool
  stopLoss : ℚ
  maxHoldEnabled : Bool
  maxHoldSeconds : ℕ
  cooldownSeconds : ℕ
  blockRebuys : Bool
  rebuyWindow : ℕ
  maxPositions : ℕ
  deriving Repr, DecidableEq

structure StoredPosition where
  entryPrice : ℚ
  /-- Field `position.maxPrice || position.entryPrice` -/
  maxPrice : Option ℚ
  entryTime : ℤ
  deriving Repr, DecidableEq

structure ExitDecision where
  exit : Bool
  reason : Option String := none
  pnl : ℚ := 0
  priority : Option ℕ := none
  deriving Repr, DecidableEq

def pnlPercentOf (pos : StoredPosition) (currentPrice : ℚ) : ℚ :=
  (currentPrice - pos.entryPrice) / pos.entryPrice * 100

def maxPriceOf (pos : StoredPosition) : ℚ := pos.maxPrice.getD pos.entryPrice

def maxPnlPercentOf (pos : StoredPosition) : ℚ :=
  (maxPriceOf pos - pos.entryPrice) / pos.entryPrice * 100

def holdTimeOf (pos : StoredPosition) (now : ℤ) : ℚ := ((now - pos.entryTime : ℤ) : ℚ) / 1000

/-- Exit decision `CopyStrategy.shouldExit(position, currentPrice)`; `sellCount` is the
value `countSellers` would return (its own errors are caught and become 0). -/
def shouldExit (cfg : StrategyConfig) (pos : StoredPosition) (currentPrice : ℚ)
    (now : ℤ) (sellCount : ℕ) : ExitDecision :=
  let pnlPercent := pnlPercentOf pos currentPrice
  let maxPrice := maxPriceOf pos
  let maxPnlPercent := maxPnlPercentOf pos
  let holdTime := holdTimeOf pos now
  -- 1: take profit
  if cfg.takeProfitEnabled = true ∧ cfg.takeProfitPercent ≤ pnlPercent then
    { exit := true, reason := some "take_profit", pnl := pnlPercent, priority := some 1 }
  -- 2: trailing stop, armed only after the position has been profitable
  else if cfg.trailingStopEnabled = true ∧ 0 < maxPnlPercent ∧
      currentPrice ≤ maxPrice * (1 - cfg.trailingStopPercent / 100) then
    { exit := true, reason := some "trailing_stop", pnl := pnlPercent, priority := some 2 }
  -- 3: stop loss
  else if cfg.stopLossEnabled = true ∧ pnlPercent ≤ -cfg.stopLoss then
    { exit := true, reason := some "stop_loss", pnl := pnlPercent, priority := some 3 }
  -- 4: traders selling
  else if cfg.minWalletsToSell ≤ sellCount then
    { exit := true, reason := some "traders_sold", pnl := pnlPercent, priority := some 4 }
  -- 5: max hold time
  else if cfg.maxHoldEnabled = true ∧ (cfg.maxHoldSeconds : ℚ) ≤ holdTime then
    { exit := true, reason := some "max_hold_time", pnl := pnlPercent, priority := some 5 }
  else
    { exit := false, pnl := pnlPercent }

/-- Modelled from the spec: the ordered list of exit triggers of §4.4, each a
condition with its reason tag and priority rank. -/
def specExitTriggers (cfg : StrategyConfig) (pos : StoredPosition) (currentPrice : ℚ)
    (now : ℤ) (sellCount : ℕ) : List (Bool × String × ℕ) :=
  [ (decide (cfg.takeProfitEnabled = true ∧ cfg.takeProfitPercent ≤ pnlPercentOf pos currentPrice),
      "take_profit", 1)
  , (decide (cfg.trailingStopEnabled = true ∧ 0 < maxPnlPercentOf pos ∧
        currentPrice ≤ maxPriceOf pos * (1 - cfg.trailingStopPercent / 100)),
      "trailing_stop", 2)
  , (decide (cfg.stopLossEnabled = true ∧ pnlPercentOf pos currentPrice ≤ -cfg.stopLoss),
      "stop_loss", 3)
  , (decide (cfg.minWalletsToSell ≤ sellCount), "traders_sold", 4)
  , (decide (cfg.maxHoldEnabled = true ∧ (cfg.maxHoldSeconds : ℚ) ≤ holdTimeOf pos now),
      "max_hold_time", 5) ]

/-- Modelled from the spec: evaluate the triggers in fixed priority order and
stop at the first whose condition holds. -/
def specExitDecision (cfg : StrategyConfig) (pos : StoredPosition) (currentPrice : ℚ)
    (now : ℤ) (sellCount : ℕ) : Option (String × ℕ) :=
  ((specExitTriggers cfg pos currentPrice now sellCount).find? (·.1)).map (·.2)

/-! ### Anti-rebuy guard -/

structure TradeRec where
  mint : String
  walletSource : String
  closedAt : ℤ
  deriving Repr, DecidableEq

/-- Store answers consumed by `isRebuySignal`; each lookup may throw. -/
structure RebuyEnv where
  /-- Lookup `redis.sismember` of the open-position set for the mint -/
  hasOpenPosition : Except String Bool
  /-- Field `walletSource` of the stored position hash for the mint -/
  positionWalletSource : Except String (Option String)
  /-- Parsed records of the same-day trade-history list -/
  tradesToday : Except String (List TradeRec)
  /-- Parsed records for the 7 prior days, day 1 first -/
  tradesPrior : Fin 7 → Except String (List TradeRec)

def tradeMatches (mint wallet : String) (window : ℕ) (now : ℤ) (t : TradeRec) : Bool :=
  t.mint = mint ∧ t.walletSource = wallet ∧ now - t.closedAt < (window : ℤ) * 1000

def scanDays (p : TradeRec → Bool) : List (Except String (List TradeRec)) → Except String Bool
  | [] => .ok false
  | d :: rest => do
    let trades ← d
    if trades.any p then .ok true else scanDays p rest

/-- The body of `isRebuySignal` inside its `try`: open-position check, then
the same-day history, then the 7 prior days. -/
def isRebuyBody (env : RebuyEnv) (mint wallet : String) (window : ℕ) (now : ℤ) :
    Except String Bool := do
  let hasOpen ← env.hasOpenPosition
  let openHit ←
    if hasOpen then do
      let ws ← env.positionWalletSource
      pure (decide (ws = some wallet))
    else pure false
  if openHit then return true
  let today ← env.tradesToday
  if today.any (tradeMatches mint wallet window now) then return true
  scanDays (tradeMatches mint wallet window now)
    ((List.finRange 7).map env.tradesPrior)

/-- Guard `CopyStrategy.isRebuySignal(mint, walletAddress)`: a missing wallet and
any thrown store error both answer `false` (fail-open). -/
def isRebuySignal (env : RebuyEnv) (mint : String) (wallet : Option String)
    (window : ℕ) (now : ℤ) : Bool :=
  match wallet with
  | none => false
  | some w =>
    match isRebuyBody env mint w window now with
    | .ok b => b
    | .error _ => false

/-! ### Entry decision -/

structure CopySignal where
  mint : String
  copyAmount : ℚ
  upvotes : ℕ
  walletAddress : Option String
  deriving Repr, DecidableEq

structure CopyEnv where
  dryRun : Bool
  rebuyEnv : RebuyEnv
  /-- Truthiness of the per-token cooldown key -/
  cooldownActive : Except String Bool
  /-- Membership of the mint in the open-position set -/
  hasPosition : Except String Bool
  /-- Count of open positions -/
  openPositionsCount : Except String ℕ

structure CopyDecision where
  copy : Bool
  reason : Option String := none
  amount : Option ℚ := none
  confidence : Option ℕ := none
  mode : Option String := none
  deriving Repr, DecidableEq

def calculateConfidence (upvotes : ℕ) : ℕ :=
  if upvotes = 1 then 30
  else if upvotes = 2 then 70
  else if 3 ≤ upvotes then 95
  else 50

def shouldCopyBody (cfg : StrategyConfig) (env : CopyEnv) (sig : CopySignal) (now : ℤ) :
    Except String CopyDecision := do
  -- 1: live mode requires the wallet minimum
  if env.dryRun = false ∧ sig.upvotes < cfg.minWalletsToBuy then
    return { copy := false, reason := some "low_upvotes" }
  -- 2: anti-rebuy per wallet+mint
  if cfg.blockRebuys = true ∧
      isRebuySignal env.rebuyEnv sig.mint sig.walletAddress cfg.rebuyWindow now = true then
    return { copy := false, reason := some "rebuy_blocked" }
  -- 3: per-token cooldown
  let cd ← env.cooldownActive
  if cd then return { copy := false, reason := some "cooldown" }
  -- 4: no duplicate position
  let hp ← env.hasPosition
  if hp then return { copy := false, reason := some "duplicate_position" }
  -- 5: max open positions
  let cnt ← env.openPositionsCount
  if cfg.maxPositions ≤ cnt then return { copy := false, reason := some "max_positions" }
  return { copy := true, amount := some sig.copyAmount
           confidence := some (calculateConfidence sig.upvotes)
           mode := some (if env.dryRun then "paper" else "live") }

/-- Entry decision `CopyStrategy.shouldCopy(copySignal)`; a thrown error is caught and
becomes `{copy:false, reason:'error'}`. -/
def shouldCopy (cfg : StrategyConfig) (env : CopyEnv) (sig : CopySignal) (now : ℤ) :
    CopyDecision :=
  match shouldCopyBody cfg env sig now with
  | .ok d => d
  | .error _ => { copy := false, reason := some "error" }

/-! ## Execution client (pumpPortalExecutor.js)

On-chain transaction records as consumed by the balance-delta verification,
shared by the Local-API and Lightning-API variants of `PumpPortalExecutor`. -/

structure TokenBalance where
  accountIndex : ℕ
  /-- Amount `uiTokenAmount.uiAmount` (missing/null reads as 0) -/
  uiAmount : ℚ
  deriving Repr, DecidableEq

structure TxMeta where
  err : Bool
  preTokenBalances : List TokenBalance
  postTokenBalances : List TokenBalance
  /-- Lamports per static/legacy account index -/
  preBalances : List ℕ
  postBalances : List ℕ
  deriving Repr, DecidableEq

structure TxMessage where
  staticAccountKeys : List String
  accountKeys : List String
  deriving Repr, DecidableEq

structure TxRecord where
  meta : Option TxMeta
  message : TxMessage
  deriving Repr, DecidableEq

/-- Signer index: search `staticAccountKeys` when non-empty, fall back to the
legacy `accountKeys` list. -/
def walletIndexOf (wallet : String) (msg : TxMessage) : Option ℕ :=
  match msg.staticAccountKeys with
  | [] => msg.accountKeys.findIdx? (· = wallet)
  | keys =>
    match keys.findIdx? (· = wallet) with
    | some i => some i
    | none => msg.accountKeys.findIdx? (· = wallet)

/-- Sum over `postTokenBalances` of post minus the pre amount at the same
`accountIndex` (0 when absent). -/
def tokensDeltaOf (m : TxMeta) : ℚ :=
  (m.postTokenBalances.map (fun pb =>
    pb.uiAmount -
      ((m.preTokenBalances.find? (·.accountIndex = pb.accountIndex)).map (·.uiAmount)).getD 0)).sum

/-- SOL delta for the signer: `(post − pre) / 1e9` at the signer index, 0 when
the signer is not among the account keys. -/
def solDeltaOf (wallet : String) (tx : TxRecord) (m : TxMeta) : ℚ :=
  match walletIndexOf wallet tx.message with
  | some i => (((m.postBalances.getD i 0 : ℕ) : ℚ) - ((m.preBalances.getD i 0 : ℕ) : ℚ)) / 1000000000
  | none => 0

structure ParsedTx where
  failed : Bool
  error : Option String := none
  tokensReceived : ℚ := 0
  tokensSold : ℚ := 0
  solReceived : ℚ := 0
  deriving Repr, DecidableEq

/-- Local-API `parseTx`: derive the deltas and reject a transaction with no
token and no SOL movement for the signer. -/
def localParseTx (wallet : String) (tx : TxRecord) : ParsedTx :=
  match tx.meta with
  | none => { failed := true, error := some "No meta in transaction" }
  | some m =>
    if m.err then { failed := true, error := some "meta.err" }
    else
      let tokensDelta := tokensDeltaOf m
      let solDelta := solDeltaOf wallet tx m
      let tokensReceived := |tokensDelta|
      let tokensSold := if tokensDelta < 0 then |tokensDelta| else 0
      let solReceived := if 0 < solDelta then solDelta else 0
      if tokensReceived = 0 ∧ tokensSold = 0 ∧ |solReceived| < 1/1000000000 then
        { failed := true
          error := some "No token/SOL movement detected for wallet (likely failed tx)" }
      else
        { failed := false, tokensReceived := tokensReceived, tokensSold := tokensSold
          solReceived := solReceived }

/-- What the network answers during one live trade attempt. -/
structure ExecEnv where
  /-- Request, deserialize, sign and `sendTransaction`, yielding the signature -/
  send : Except String String
  /-- Fetch `connection.getTransaction(signature)` (`.ok none` = not found) -/
  txFetch : Except String (Option TxRecord)
  deriving Repr

/-- Local-API `getTxDetails`: fetch errors, a missing record and `meta.err`
are all failures; otherwise parse the balance movement. -/
def localGetTxDetails (wallet : String) (env : ExecEnv) : ParsedTx :=
  match env.txFetch with
  | .error e => { failed := true, error := some e }
  | .ok none => { failed := true, error := some "Transaction not found" }
  | .ok (some tx) =>
    match tx.meta with
    | some m =>
      if m.err then { failed := true, error := some "meta.err" }
      else localParseTx wallet tx
    | none => localParseTx wallet tx

inductive TokensField
  | num (q : ℚ)
  /-- A percent string such as "100%" -/
  | pct (s : String)
  deriving Repr, DecidableEq

structure ExecResult where
  success : Bool
  action : String
  mint : String
  signature : Option String := none
  solSpent : Option ℚ := none
  tokensReceived : Option ℚ := none
  tokensSold : Option TokensField := none
  solReceived : Option ℚ := none
  error : Option String := none
  simulated : Bool := false
  timestamp : ℤ := 0
  deriving Repr, DecidableEq

/-! ### Dry-run simulation -/

def hexChars : List Char := "abcdef0123456789".toList

/-- Random `fakeSignature()` (Local-API variant): 88 characters drawn from the hex
alphabet by `Math.floor(Math.random() * 16)`, modelled by a draw stream. -/
def fakeSignature (rng : ℕ → Fin 16) : String :=
  String.mk ((List.range 88).map (fun i => hexChars.getD (rng i).val 'a'))

def FIXED_NOTIONAL_PRICE : ℚ := 1/1000000

def simulateBuy (mint : String) (solAmount : ℚ) (rng : ℕ → Fin 16) (now : ℤ) : ExecResult :=
  { success := true, simulated := true, action := "buy", mint := mint
    solSpent := some solAmount
    tokensReceived := some (solAmount / FIXED_NOTIONAL_PRICE)
    signature := some (fakeSignature rng), timestamp := now }

def simulateSell (mint : String) (amountTokens : TokensField) (rng : ℕ → Fin 16) (now : ℤ) :
    ExecResult :=
  match amountTokens with
  | .pct s =>
    { success := true, simulated := true, action := "sell", mint := mint
      tokensSold := some (.pct s), solReceived := some 0
      signature := some (fakeSignature rng), timestamp := now }
  | .num a =>
    { success := true, simulated := true, action := "sell", mint := mint
      tokensSold := some (.num a), solReceived := some (a * FIXED_NOTIONAL_PRICE)
      signature := some (fakeSignature rng), timestamp := now }

/-! ### Local-API buy/sell

`waitForConfirmation` only logs: on-chain errors thrown inside its polling
loop are swallowed by the inner catch, and the callers ignore its boolean
result, so it does not influence the returned `ExecutionResult` and is not
modelled.  The second component of each result records whether network calls
were made. -/

def localBuyToken (wallet : String) (dryRun : Bool) (env : ExecEnv)
    (mint : String) (solAmount : ℚ) (rng : ℕ → Fin 16) (now : ℤ) : ExecResult × Bool :=
  if dryRun then (simulateBuy mint solAmount rng now, false)
  else
    match env.send with
    | .error e => ({ success := false, action := "buy", mint := mint, error := some e }, true)
    | .ok signature =>
      let d := localGetTxDetails wallet env
      if d.failed then
        ({ success := false, action := "buy", mint := mint
           error := some "On-chain BUY failed" }, true)
      else if d.tokensReceived ≤ 0 then
        ({ success := false, action := "buy", mint := mint
           error := some "On-chain BUY has zero tokensReceived. Treating as failed." }, true)
      else
        ({ success := true, action := "buy", mint := mint, signature := some signature
           solSpent := some solAmount, tokensReceived := some d.tokensReceived
           timestamp := now }, true)

def localSellToken (wallet : String) (dryRun : Bool) (env : ExecEnv)
    (mint : String) (amountTokens : TokensField) (rng : ℕ → Fin 16) (now : ℤ) :
    ExecResult × Bool :=
  if dryRun then (simulateSell mint amountTokens rng now, false)
  else
    match env.send with
    | .error e => ({ success := false, action := "sell", mint := mint, error := some e }, true)
    | .ok signature =>
      let d := localGetTxDetails wallet env
      if d.failed then
        ({ success := false, action := "sell", mint := mint
           error := some "On-chain SELL failed" }, true)
      else if d.tokensSold ≤ 0 then
        ({ success := false, action := "sell", mint := mint
           error := some "On-chain SELL has zero tokensSold. Treating as failed." }, true)
      else if d.solReceived ≤ 0 then
        ({ success := false, action := "sell", mint := mint
           error := some "On-chain SELL has zero solReceived. Treating as failed." }, true)
      else
        ({ success := true, action := "sell", mint := mint, signature := some signature
           tokensSold := some (.num d.tokensSold), solReceived := some d.solReceived
           timestamp := now }, true)

/-! ### Lightning-API variant -/

/-- Lightning `parseTx`: compares only the FIRST pre/post token balance
entries and never takes an absolute value; `parseTx(null)` yields `{}` whose
missing fields read as 0. -/
def lightningParseTx (wallet : String) (otx : Option TxRecord) : ℚ × ℚ :=
  match otx with
  | none => (0, 0)
  | some tx =>
    match tx.meta with
    | none => (0, 0)
    | some m =>
      let tokensReceived :=
        ((m.postTokenBalances.head?.map (·.uiAmount)).getD 0) -
          ((m.preTokenBalances.head?.map (·.uiAmount)).getD 0)
      let solReceived :=
        match tx.message.accountKeys.findIdx? (· = wallet) with
        | some i =>
          (((m.postBalances.getD i 0 : ℕ) : ℚ) - ((m.preBalances.getD i 0 : ℕ) : ℚ)) / 1000000000
        | none => 0
      (tokensReceived, solReceived)

/-- Lightning `getTxDetails`: a fetch error returns `null`. -/
def lightningGetTxDetails (wallet : String) (env : ExecEnv) : Option (ℚ × ℚ) :=
  match env.txFetch with
  | .error _ => none
  | .ok otx => some (lightningParseTx wallet otx)

/-- Lightning `buyToken`: once the trade request returns a signature, the
result is `success:true` with `tokensReceived: tx?.tokensReceived || 0` —
no zero-movement check. -/
def lightningBuyToken (wallet : String) (dryRun : Bool) (env : ExecEnv)
    (mint : String) (solAmount : ℚ) (rng : ℕ → Fin 16) (now : ℤ) : ExecResult × Bool :=
  if dryRun then (simulateBuy mint solAmount rng now, false)
  else
    match env.send with
    | .error e => ({ success := false, action := "buy", mint := mint, error := some e }, true)
    | .ok signature =>
      let d := lightningGetTxDetails wallet env
      ({ success := true, action := "buy", mint := mint, signature := some signature
         solSpent := some solAmount
         tokensReceived := some ((d.map (·.1)).getD 0)
         timestamp := now }, true)

/-- Lightning `sellToken`: `success:true` with `solReceived: tx?.solReceived || 0`. -/
def lightningSellToken (wallet : String) (dryRun : Bool) (env : ExecEnv)
    (mint : String) (amountTokens : ℚ) (rng : ℕ → Fin 16) (now : ℤ) : ExecResult × Bool :=
  if dryRun then (simulateSell mint (.num amountTokens) rng now, false)
  else
    match env.send with
    | .error e => ({ success := false, action := "sell", mint := mint, error := some e }, true)
    | .ok signature =>
      let d := lightningGetTxDetails wallet env
      ({ success := true, action := "sell", mint := mint, signature := some signature
         tokensSold := some (.num amountTokens)
         solReceived := some ((d.map (·.2)).getD 0)
         timestamp := now }, true)

/-! ## Concrete test fixtures -/

/-- The C3 round-trip trade: entryPrice 0.0001, exitPrice 0.00015, quantity
1,000,000, 100 SOL spent, zero slippage, zero priority fee, default network
fee, PumpPortal venue (1.75% each side). -/
def pnlRoundTripTrade : PnLTrade :=
  { entryPrice := 1/10000, exitPrice := 15/100000, tokenAmount := 1000000
    solSpent := 100, executor := "pumpportal", slippage := 0, priorityFee := 0 }

/-- The C4 bonding-curve account: virtualToken = 1_000_000 × 10^6,
virtualSol = 30 × 10^9 lamports, completion flag clear. -/
def curveAccountC4 : CurveState :=
  { virtualTokenReserves := 1000000000000, virtualSolReserves := 30000000000
    realTokenReserves := 500000000000000, realSolReserves := 12000000000
    tokenTotalSupply := 1000000000000000, complete := false }

/-- Configuration with a (test-only) overlap between the profit-target and
stop-loss thresholds: target −10%, stop −5%. -/
def overlapCfg : StrategyConfig :=
  { minWalletsToBuy := 1, minWalletsToSell := 1
    takeProfitEnabled := true, takeProfitPercent := -10
    trailingStopEnabled := true, trailingStopPercent := 12
    stopLossEnabled := true, stopLoss := 5
    maxHoldEnabled := false, maxHoldSeconds := 240
    cooldownSeconds := 60, blockRebuys := true, rebuyWindow := 300, maxPositions := 2 }

def overlapPos : StoredPosition := { entryPrice := 100, maxPrice := none, entryTime := 0 }

/-- Reachable-cache invariant: the real cache only ever stores quotes built
on a success path, which carry a price and are not marked stale. -/
def cacheWF (st : PSState) : Prop :=
  ∀ c, st.cache = some c → c.price ≠ none ∧ c.stale = false

/-- An environment in which every price source misses. -/
def envAllMiss : PriceEnv := { pump := none, jup := none, dex := none }

/-- A cached pump.fun success quote from timestamp 0. -/
def staleCacheQuote : Quote :=
  { price := some 42, source := "pump.fun", bondingProgress := some (1/2)
    graduated := false, ts := 0 }

/-- A close record for (MINT, W) 30 seconds before time 0. -/
def rebuyEnvRecent : RebuyEnv :=
  { hasOpenPosition := .ok false, positionWalletSource := .ok none
    tradesToday := .ok [⟨"MINT", "W", -30000⟩], tradesPrior := fun _ => .ok [] }

/-- A close record for (MINT, W) 400 seconds before time 0. -/
def rebuyEnvOld : RebuyEnv :=
  { hasOpenPosition := .ok false, positionWalletSource := .ok none
    tradesToday := .ok [⟨"MINT", "W", -400000⟩], tradesPrior := fun _ => .ok [] }

/-- An open position sourced from wallet W. -/
def rebuyEnvOpenW : RebuyEnv :=
  { hasOpenPosition := .ok true, positionWalletSource := .ok (some "W")
    tradesToday := .ok [], tradesPrior := fun _ => .ok [] }

/-- A store whose open-position lookup throws. -/
def rebuyEnvErr : RebuyEnv :=
  { hasOpenPosition := .error "redis connection lost", positionWalletSource := .ok none
    tradesToday := .ok [], tradesPrior := fun _ => .ok [] }

def copyEnvRecent : CopyEnv :=
  { dryRun := true, rebuyEnv := rebuyEnvRecent, cooldownActive := .ok false
    hasPosition := .ok false, openPositionsCount := .ok 0 }

def copySigW : CopySignal :=
  { mint := "MINT", copyAmount := 1/10, upvotes := 2, walletAddress := some "W" }

/-- A confirmed transaction whose pre/post snapshots show zero token and zero
SOL movement for the signer WALLET. -/
def zeroMoveTx : TxRecord :=
  { meta := some
      { err := false
        preTokenBalances := [⟨1, 5⟩], postTokenBalances := [⟨1, 5⟩]
        preBalances := [1000000000, 2000000000], postBalances := [1000000000, 2000000000] }
    message := { staticAccountKeys := ["WALLET", "OTHER"], accountKeys := ["WALLET", "OTHER"] } }

def zeroMoveEnv : ExecEnv := { send := .ok "SIG", txFetch := .ok (some zeroMoveTx) }

/-- A buy that moved 10 tokens to the signer for 1 SOL. -/
def goodBuyTx : TxRecord :=
  { meta := some
      { err := false
        preTokenBalances := [⟨1, 0⟩], postTokenBalances := [⟨1, 10⟩]
        preBalances := [5000000000, 0], postBalances := [4000000000, 0] }
    message := { staticAccountKeys := ["WALLET", "TOKENACC"], accountKeys := [] } }

def goodBuyEnv : ExecEnv := { send := .ok "SIG", txFetch := .ok (some goodBuyTx) }

/-- A sell that moved 10 tokens out of the signer and 1 SOL in. -/
def goodSellTx : TxRecord :=
  { meta := some
      { err := false
        preTokenBalances := [⟨1, 10⟩], postTokenBalances := [⟨1, 0⟩]
        preBalances := [4000000000, 0], postBalances := [5000000000, 0] }
    message := { staticAccountKeys := ["WALLET", "TOKENACC"], accountKeys := [] } }

def goodSellEnv : ExecEnv := { send := .ok "SIG", txFetch := .ok (some goodSellTx) }

/-! ## Theorems -/

/-- C3: realized PnL applies the venue sell fee (1.75% PumpPortal, 0.3%
Jupiter), then slippage, then the fixed network/priority fees, and on the
round-trip test trade yields pnlPercent 47.37 — equal to the hand-computed
reference value of that fee order: gross 150 SOL, minus 1.75% sell fee, minus
the fixed 0.000005 network fee, netted against the 100 SOL spent and rounded
to 2 decimals. -/
theorem claim3_pnl_fee_order_round_trip :
    ((calculatePnL pnlRoundTripTrade).toOption.map fun r => (r.pnlPercent, r.netReceived)) =
      some (4737/100, 29474999/200000)
    ∧ ((calculatePnL pnlRoundTripTrade).toOption.map fun r => (r.buyFeePercent, r.sellFeePercent)) =
      some (7/400, 7/400)
    ∧ ((calculatePnL { pnlRoundTripTrade with executor := "jupiter" }).toOption.map
        fun r => (r.buyFeePercent, r.sellFeePercent)) = some (3/1000, 3/1000)
    ∧ (4737 : ℚ)/100 =
      round2 ((((1000000 * (15/100000)) * (1 - 7/400) - (5/1000000 + 0)) - 100) / 100 * 100) := by
  refine ⟨?_, ?_, ?_, ?_⟩
  all_goals norm_num [calculatePnL, pnlRoundTripTrade, round2, round6, Except.toOption,
    String.reduceEq]
  all_goals decide

/-- C4: price resolution on the test reserves returns price 30/1,000,000
= 3e-5 with graduated = false, in both the raw reader (which scales the
integer reserves by the two decimal precisions before a single division) and
the price service bonding-curve reader. -/
theorem claim4_bonding_curve_price_resolution :
    ((rawGetPrice curveAccountC4).map fun q => (q.price, q.graduated)) =
      some (some (3/100000), false)
    ∧ ((psGetPumpFunPrice curveAccountC4).map fun p => (p.price, p.graduated)) =
      some (3/100000, false)
    ∧ ((30000000000 * 1000000 : ℕ) : ℚ) / ((1000000000000 * 1000000000 : ℕ) : ℚ) = 3/100000
    ∧ (3 : ℚ)/100000 = 30/1000000 := by
  refine ⟨?_, ?_, by norm_num, by norm_num⟩ <;>
    norm_num [rawGetPrice, psGetPumpFunPrice, curveAccountC4, bondingProgressOf,
      INITIAL_REAL_TOKEN_RESERVES]

/-- C2: `shouldExit` evaluates the five exit triggers in the fixed priority
order profit-target (1), trailing-stop (2), stop-loss (3), signal-follow (4),
max-hold (5) and returns the first trigger whose condition holds — it agrees
with the spec-side first-match evaluation `specExitDecision`, whose trailing
stop is armed only once the maximum observed P&L-percent is positive and
fires at `currentPrice ≤ maxPrice * (1 - trailingPercent/100)` — and whenever
the profit-target and stop-loss conditions hold simultaneously the decision
is profit-target with priority 1. -/
theorem claim2_exit_trigger_priority :
    (∀ (cfg : StrategyConfig) (pos : StoredPosition) (currentPrice : ℚ) (now : ℤ)
        (sellCount : ℕ),
      (shouldExit cfg pos currentPrice now sellCount).exit =
        (specExitDecision cfg pos currentPrice now sellCount).isSome
      ∧ (shouldExit cfg pos currentPrice now sellCount).reason =
        (specExitDecision cfg pos currentPrice now sellCount).map Prod.fst
      ∧ (shouldExit cfg pos currentPrice now sellCount).priority =
        (specExitDecision cfg pos currentPrice now sellCount).map Prod.snd)
    ∧ (∀ (cfg : StrategyConfig) (pos : StoredPosition) (currentPrice : ℚ) (now : ℤ)
        (sellCount : ℕ),
      cfg.takeProfitEnabled = true →
      cfg.takeProfitPercent ≤ pnlPercentOf pos currentPrice →
      cfg.stopLossEnabled = true →
      pnlPercentOf pos currentPrice ≤ -cfg.stopLoss →
      (shouldExit cfg pos currentPrice now sellCount).reason = some "take_profit"
      ∧ (shouldExit cfg pos currentPrice now sellCount).priority = some 1) := by
  constructor
  · intro cfg pos currentPrice now sellCount
    simp only [shouldExit, specExitDecision, specExitTriggers]
    split_ifs with h1 h2 h3 h4 h5
    · rw [decide_eq_true h1]; simp [List.find?]
    · rw [decide_eq_false h1, decide_eq_true h2]; simp [List.find?]
    · rw [decide_eq_false h1, decide_eq_false h2, decide_eq_true h3]; simp [List.find?]
    · rw [decide_eq_false h1, decide_eq_false h2, decide_eq_false h3, decide_eq_true h4]
      simp [List.find?]
    · rw [decide_eq_false h1, decide_eq_false h2, decide_eq_false h3, decide_eq_false h4,
        decide_eq_true h5]
      simp [List.find?]
    · rw [decide_eq_false h1, decide_eq_false h2, decide_eq_false h3, decide_eq_false h4,
        decide_eq_false h5]
      simp [List.find?]
  · intro cfg pos currentPrice now sellCount h1 h2 _ _
    simp [shouldExit, h1, h2]

theorem claim2_exit_trigger_priority_witness :
    (shouldExit overlapCfg overlapPos 94 0 0).reason = some "take_profit"
    ∧ (shouldExit overlapCfg overlapPos 94 0 0).priority = some 1 :=
  claim2_exit_trigger_priority.2 overlapCfg overlapPos 94 0 0 rfl
    (by norm_num [pnlPercentOf, overlapCfg, overlapPos]) rfl
    (by norm_num [pnlPercentOf, overlapCfg, overlapPos])

/-! ### Price resolver lemmas -/

lemma resolveAfterPump_not_pump (now : ℤ) (st : PSState) (env : PriceEnv)
    (hs : (resolveAfterPump now st env).quote.stale = false) :
    (resolveAfterPump now st env).quote.source ≠ "pump.fun" := by
  unfold resolveAfterPump at *
  rcases hj : env.jup with _ | ⟨pr, src⟩
  · rcases hd : env.dex with _ | d
    · rcases hc : st.cache with _ | c
      · simp [hj, hd, hc, noSourceQuote]
      · simp [hj, hd, hc] at hs
    · simp [hj, hd]
  · cases src <;> simp [hj, JupSrc.name]

lemma resolveAfterPump_failed (now : ℤ) (st : PSState) (env : PriceEnv) :
    (resolveAfterPump now st env).state.failed = none ∨
    (resolveAfterPump now st env).state.failed =
      some ⟨(st.failed.map (·.count)).getD 0 + 1, now⟩ := by
  unfold resolveAfterPump
  rcases hj : env.jup with _ | ⟨pr, src⟩
  · rcases hd : env.dex with _ | d
    · rcases hc : st.cache with _ | c <;> simp [hj, hd, hc]
    · simp [hj, hd]
  · simp [hj]

lemma resolveAfterPump_success_clears (now : ℤ) (st : PSState) (env : PriceEnv)
    (hs : (resolveAfterPump now st env).quote.stale = false)
    (hp : (resolveAfterPump now st env).quote.price ≠ none) :
    (resolveAfterPump now st env).state.failed = none := by
  unfold resolveAfterPump at *
  rcases hj : env.jup with _ | ⟨pr, src⟩
  · rcases hd : env.dex with _ | d
    · rcases hc : st.cache with _ | c
      · simp [hj, hd, hc, noSourceQuote] at hp
      · simp [hj, hd, hc] at hs
    · simp [hj, hd]
  · simp [hj]

lemma resolveSources_pump_source (now : ℤ) (st : PSState) (env : PriceEnv)
    (hs : (resolveSources now st env).quote.stale = false)
    (hsrc : (resolveSources now st env).quote.source = "pump.fun") :
    ∃ p, env.pump = some p ∧ p.graduated = false ∧ p.price ≠ 0 := by
  unfold resolveSources at hs hsrc
  rcases hp : env.pump with _ | p
  · rw [hp] at hsrc hs
    exact absurd hsrc (resolveAfterPump_not_pump now st env hs)
  · simp only [hp] at hsrc hs
    by_cases hcond : p.price ≠ 0 ∧ p.graduated = false
    · exact ⟨p, rfl, hcond.2, hcond.1⟩
    · rw [if_neg hcond] at hsrc hs
      exact absurd hsrc (resolveAfterPump_not_pump now st env hs)

lemma resolveSources_failed (now : ℤ) (st : PSState) (env : PriceEnv) :
    (resolveSources now st env).state.failed = none ∨
    (resolveSources now st env).state.failed =
      some ⟨(st.failed.map (·.count)).getD 0 + 1, now⟩ := by
  unfold resolveSources
  rcases hp : env.pump with _ | p
  · exact resolveAfterPump_failed now st env
  · simp only
    by_cases hcond : p.price ≠ 0 ∧ p.graduated = false
    · rw [if_pos hcond]; left; rfl
    · rw [if_neg hcond]; exact resolveAfterPump_failed now st env

lemma resolveSources_success_clears (now : ℤ) (st : PSState) (env : PriceEnv)
    (hs : (resolveSources now st env).quote.stale = false)
    (hp : (resolveSources now st env).quote.price ≠ none) :
    (resolveSources now st env).state.failed = none := by
  unfold resolveSources at hs hp ⊢
  rcases he : env.pump with _ | p
  · rw [he] at hs hp
    exact resolveAfterPump_success_clears now st env hs hp
  · simp only [he] at hs hp ⊢
    by_cases hcond : p.price ≠ 0 ∧ p.graduated = false
    · rw [if_pos hcond]
    · rw [if_neg hcond] at hs hp ⊢
      exact resolveAfterPump_success_clears now st env hs hp

lemma resolveSources_all_miss (now : ℤ) (st : PSState) (env : PriceEnv) (c : Quote)
    (hpump : pumpUsable env = false) (hjup : env.jup = none) (hdex : env.dex = none)
    (hc : st.cache = some c) :
    resolveSources now st env =
      ⟨{ c with stale := true },
        { st with failed := some ⟨(st.failed.map (·.count)).getD 0 + 1, now⟩ }, true⟩ := by
  unfold resolveSources
  unfold pumpUsable at hpump
  rcases hp : env.pump with _ | p
  · unfold resolveAfterPump
    simp [hjup, hdex, hc]
  · rw [hp] at hpump
    simp only [decide_eq_false_iff_not] at hpump
    simp only [hp]
    rw [if_neg hpump]
    unfold resolveAfterPump
    simp [hjup, hdex, hc]

lemma getPrice_forceFresh (now : ℤ) (st : PSState) (env : PriceEnv) :
    getPrice true now st env = resolveSources now st env := by
  rcases hc : st.cache with _ | c <;> simp [getPrice, hc]

/-- Every call that reaches the source chain is a `resolveSources` run on the
state left by the backoff pre-check. -/
lemma getPrice_networkUsed_resolves (ff : Bool) (now : ℤ) (st : PSState) (env : PriceEnv)
    (h : (getPrice ff now st env).networkUsed = true) :
    ∃ st2, st2.cache = st.cache ∧
      (st2.failed = st.failed ∨ st2.failed = none) ∧
      getPrice ff now st env = resolveSources now st2 env := by
  cases ff with
  | true => exact ⟨st, rfl, Or.inl rfl, getPrice_forceFresh now st env⟩
  | false =>
    rcases hf : st.failed with _ | f
    · rcases hc : st.cache with _ | c
      · exact ⟨st, hc, Or.inl hf, by simp [getPrice, hf, hc]⟩
      · by_cases ht : now - c.ts < 5000
        · exfalso; simp [getPrice, hf, hc, ht] at h
        · exact ⟨st, hc, Or.inl hf, by simp [getPrice, hf, hc, ht]⟩
    · by_cases hr : 60000 < now - f.lastAttempt
      · rcases hc : st.cache with _ | c
        · exact ⟨{ st with failed := none }, by simp [hc], Or.inr rfl,
            by simp [getPrice, hf, hr, hc]⟩
        · by_cases ht : now - c.ts < 5000
          · exfalso; simp [getPrice, hf, hr, hc, ht] at h
          · exact ⟨{ st with failed := none }, by simp [hc], Or.inr rfl,
              by simp [getPrice, hf, hr, hc, ht]⟩
      · by_cases h3 : 3 ≤ f.count
        · exfalso; rcases hc : st.cache with _ | c <;> simp [getPrice, hf, hr, h3, hc] at h
        · rcases hc : st.cache with _ | c
          · exact ⟨st, hc, Or.inl hf, by simp [getPrice, hf, hr, h3, hc]⟩
          · by_cases ht : now - c.ts < 5000
            · exfalso; simp [getPrice, hf, hr, h3, hc, ht] at h
            · exact ⟨st, hc, Or.inl hf, by simp [getPrice, hf, hr, h3, hc, ht]⟩

lemma resolveAfterPump_networkUsed (now : ℤ) (st : PSState) (env : PriceEnv) :
    (resolveAfterPump now st env).networkUsed = true := by
  unfold resolveAfterPump
  rcases hj : env.jup with _ | ⟨pr, src⟩
  · rcases hd : env.dex with _ | d
    · rcases hc : st.cache with _ | c <;> simp [hj, hd, hc]
    · simp [hj, hd]
  · simp [hj]

lemma resolveSources_networkUsed (now : ℤ) (st : PSState) (env : PriceEnv) :
    (resolveSources now st env).networkUsed = true := by
  unfold resolveSources
  rcases hp : env.pump with _ | p
  · exact resolveAfterPump_networkUsed now st env
  · simp only
    by_cases hcond : p.price ≠ 0 ∧ p.graduated = false
    · rw [if_pos hcond]
    · rw [if_neg hcond]; exact resolveAfterPump_networkUsed now st env

lemma resolveAfterPump_price_none (now : ℤ) (st : PSState) (env : PriceEnv)
    (hwf : ∀ c, st.cache = some c → c.price ≠ none)
    (h : (resolveAfterPump now st env).quote.price = none) :
    (resolveAfterPump now st env).quote.source = "none" ∧
    (resolveAfterPump now st env).quote.error ≠ none := by
  unfold resolveAfterPump at h ⊢
  rcases hj : env.jup with _ | ⟨pr, src⟩
  · rcases hd : env.dex with _ | d
    · rcases hc : st.cache with _ | c
      · simp [hj, hd, hc, noSourceQuote]
      · rw [hj] at h; simp only [hd, hc] at h
        exact absurd (by simpa using h) (hwf c hc)
    · simp [hj, hd] at h
  · simp [hj] at h

lemma resolveSources_price_none (now : ℤ) (st : PSState) (env : PriceEnv)
    (hwf : ∀ c, st.cache = some c → c.price ≠ none)
    (h : (resolveSources now st env).quote.price = none) :
    (resolveSources now st env).quote.source = "none" ∧
    (resolveSources now st env).quote.error ≠ none := by
  unfold resolveSources at h ⊢
  rcases hp : env.pump with _ | p
  · rw [hp] at h
    exact resolveAfterPump_price_none now st env hwf h
  · simp only [hp] at h ⊢
    by_cases hcond : p.price ≠ 0 ∧ p.graduated = false
    · rw [if_pos hcond] at h; simp at h
    · rw [if_neg hcond] at h ⊢
      exact resolveAfterPump_price_none now st env hwf h

/-- A call that performs no network activity returns either the cached quote
verbatim or the skipped quote. -/
lemma getPrice_no_network (ff : Bool) (now : ℤ) (st : PSState) (env : PriceEnv)
    (h : (getPrice ff now st env).networkUsed = false) :
    (∃ c, st.cache = some c ∧ (getPrice ff now st env).quote = c) ∨
    (getPrice ff now st env).quote = skippedQuote now := by
  cases ff with
  | true =>
    rw [getPrice_forceFresh] at h
    rw [resolveSources_networkUsed] at h
    exact absurd h (by simp)
  | false =>
    rcases hf : st.failed with _ | f
    · rcases hc : st.cache with _ | c
      · rw [show getPrice false now st env = resolveSources now st env by
          simp [getPrice, hf, hc], resolveSources_networkUsed] at h
        exact absurd h (by simp)
      · by_cases ht : now - c.ts < 5000
        · exact Or.inl ⟨c, rfl, by simp [getPrice, hf, hc, ht]⟩
        · rw [show getPrice false now st env = resolveSources now st env by
            simp [getPrice, hf, hc, ht], resolveSources_networkUsed] at h
          exact absurd h (by simp)
    · by_cases hr : 60000 < now - f.lastAttempt
      · rcases hc : st.cache with _ | c
        · rw [show getPrice false now st env =
              resolveSources now { st with failed := none } env by
            simp [getPrice, hf, hr, hc], resolveSources_networkUsed] at h
          exact absurd h (by simp)
        · by_cases ht : now - c.ts < 5000
          · exact Or.inl ⟨c, rfl, by simp [getPrice, hf, hr, hc, ht]⟩
          · rw [show getPrice false now st env =
                resolveSources now { st with failed := none } env by
              simp [getPrice, hf, hr, hc, ht], resolveSources_networkUsed] at h
            exact absurd h (by simp)
      · by_cases h3 : 3 ≤ f.count
        · rcases hc : st.cache with _ | c
          · exact Or.inr (by simp [getPrice, hf, hr, h3, hc])
          · exact Or.inl ⟨c, rfl, by simp [getPrice, hf, hr, h3, hc]⟩
        · rcases hc : st.cache with _ | c
          · rw [show getPrice false now st env = resolveSources now st env by
              simp [getPrice, hf, hr, h3, hc], resolveSources_networkUsed] at h
            exact absurd h (by simp)
          · by_cases ht : now - c.ts < 5000
            · exact Or.inl ⟨c, rfl, by simp [getPrice, hf, hr, h3, hc, ht]⟩
            · rw [show getPrice false now st env = resolveSources now st env by
                simp [getPrice, hf, hr, h3, hc, ht], resolveSources_networkUsed] at h
              exact absurd h (by simp)

/-- C5: a bonding-curve account whose completion flag is set yields
price = null with graduated = true from the raw reader, and the resolver only
ever produces a fresh (network-derived, non-stale) quote with source
"pump.fun" when the bonding-curve read reported a usable, non-graduated
price — a graduated curve always falls through to the later sources. -/
theorem claim5_graduated_curve_not_authoritative :
    (∀ s : CurveState, s.complete = true →
      rawGetPrice s = some { price := none, bondingProgress := 1, graduated := true })
    ∧ (∀ (ff : Bool) (now : ℤ) (st : PSState) (env : PriceEnv),
      (getPrice ff now st env).networkUsed = true →
      (getPrice ff now st env).quote.stale = false →
      (getPrice ff now st env).quote.source = "pump.fun" →
      ∃ p, env.pump = some p ∧ p.graduated = false ∧ p.price ≠ 0) := by
  constructor
  · intro s h
    simp [rawGetPrice, h]
  · intro ff now st env hn hs hsrc
    obtain ⟨st2, -, -, heq⟩ := getPrice_networkUsed_resolves ff now st env hn
    rw [heq] at hs hsrc
    exact resolveSources_pump_source now st2 env hs hsrc

theorem claim5_graduated_curve_not_authoritative_witness :
    rawGetPrice { virtualTokenReserves := 1000000000000, virtualSolReserves := 30000000000
                  realTokenReserves := 0, realSolReserves := 0
                  tokenTotalSupply := 1000000000000000, complete := true }
      = some { price := none, bondingProgress := 1, graduated := true }
    ∧ ∃ p, (PriceEnv.mk (some ⟨5, 1/2, false⟩) none none).pump = some p ∧
        p.graduated = false ∧ p.price ≠ 0 := by
  constructor
  · exact claim5_graduated_curve_not_authoritative.1 _ rfl
  · exact claim5_graduated_curve_not_authoritative.2 true 0 ⟨none, none⟩
      (PriceEnv.mk (some ⟨5, 1/2, false⟩) none none)
      (by norm_num [getPrice, resolveSources])
      (by norm_num [getPrice, resolveSources])
      (by norm_num [getPrice, resolveSources])

/-- C6: with 3 accumulated failures less than 60s old, a non-forceFresh
resolve with no cached quote performs no network calls and returns a
price-null quote with source "skipped"; a failure older than 60s clears the
backoff entry (any entry recorded afterwards restarts at count 1); and any
resolution that reaches the sources and succeeds (fresh quote with a price)
leaves no failure-backoff entry. -/
theorem claim6_failure_backoff :
    (∀ (env : PriceEnv) (now last : ℤ) (cnt : ℕ),
      3 ≤ cnt → now - last < 60000 →
      getPrice false now ⟨none, some ⟨cnt, last⟩⟩ env =
        ⟨skippedQuote now, ⟨none, some ⟨cnt, last⟩⟩, false⟩)
    ∧ (∀ (env : PriceEnv) (now : ℤ) (st : PSState) (f : FailedEntry),
      st.failed = some f → 60000 < now - f.lastAttempt →
      (getPrice false now st env).state.failed = none ∨
      (getPrice false now st env).state.failed = some ⟨1, now⟩)
    ∧ (∀ (ff : Bool) (env : PriceEnv) (now : ℤ) (st : PSState),
      (getPrice ff now st env).networkUsed = true →
      (getPrice ff now st env).quote.stale = false →
      (getPrice ff now st env).quote.price ≠ none →
      (getPrice ff now st env).state.failed = none) := by
  refine ⟨?_, ?_, ?_⟩
  · intro env now last cnt h3 hlt
    have hnr : ¬(60000 < now - last) := not_lt.mpr hlt.le
    simp [getPrice, hnr, h3]
  · intro env now st f hf hr
    rcases hc : st.cache with _ | c
    · rw [show getPrice false now st env =
          resolveSources now { st with failed := none } env by
        simp [getPrice, hf, hr, hc]]
      rcases resolveSources_failed now { st with failed := none } env with h | h
      · exact Or.inl h
      · exact Or.inr (by simpa using h)
    · by_cases ht : now - c.ts < 5000
      · exact Or.inl (by simp [getPrice, hf, hr, hc, ht])
      · rw [show getPrice false now st env =
            resolveSources now { st with failed := none } env by
          simp [getPrice, hf, hr, hc, ht]]
        rcases resolveSources_failed now { st with failed := none } env with h | h
        · exact Or.inl h
        · exact Or.inr (by simpa using h)
  · intro ff env now st hn hs hp
    obtain ⟨st2, -, -, heq⟩ := getPrice_networkUsed_resolves ff now st env hn
    rw [heq] at hs hp ⊢
    exact resolveSources_success_clears now st2 env hs hp

theorem claim6_failure_backoff_witness :
    getPrice false 1000 ⟨none, some ⟨3, 0⟩⟩ envAllMiss =
      ⟨skippedQuote 1000, ⟨none, some ⟨3, 0⟩⟩, false⟩
    ∧ ((getPrice false 70000 ⟨none, some ⟨3, 0⟩⟩ envAllMiss).state.failed = none ∨
       (getPrice false 70000 ⟨none, some ⟨3, 0⟩⟩ envAllMiss).state.failed = some ⟨1, 70000⟩)
    ∧ (getPrice true 0 ⟨none, none⟩ (PriceEnv.mk (some ⟨5, 1/2, false⟩) none none)).state.failed
      = none := by
  refine ⟨?_, ?_, ?_⟩
  · exact claim6_failure_backoff.1 envAllMiss 1000 0 3 (by norm_num) (by norm_num)
  · exact claim6_failure_backoff.2.1 envAllMiss 70000 ⟨none, some ⟨3, 0⟩⟩ ⟨3, 0⟩ rfl
      (by norm_num)
  · exact claim6_failure_backoff.2.2 true (PriceEnv.mk (some ⟨5, 1/2, false⟩) none none) 0
      ⟨none, none⟩ (by simp [getPrice, resolveSources])
      (by simp [getPrice, resolveSources]) (by simp [getPrice, resolveSources])

/-- C7 counterexample: on the failure-backoff path the cached quote is
returned verbatim even when it is 30 seconds old (far past the 5-second
freshness window), with its stale flag still false — refuting the claim that
every expired cached quote returned by resolve() is marked stale. -/
theorem claim7_counterexample_backoff_cache_not_marked :
    (getPrice false 30000 ⟨some staleCacheQuote, some ⟨3, 25000⟩⟩ envAllMiss).quote
      = staleCacheQuote
    ∧ staleCacheQuote.stale = false
    ∧ staleCacheQuote.price = some 42
    ∧ (5000 : ℤ) ≤ 30000 - staleCacheQuote.ts := by
  refine ⟨?_, rfl, rfl, by norm_num [staleCacheQuote]⟩
  norm_num [getPrice]

/-- C7 (amended): a quote returned with price = null always carries source
"none" or "skipped" together with an error explanation (over reachable
states, whose cache holds only fresh priced quotes); on the
all-sources-failed path an existing cached quote is returned marked stale;
but on the failure-backoff path the cached quote is returned verbatim,
without the stale mark. -/
theorem claim7_null_and_stale_quote_invariants :
    (∀ (ff : Bool) (now : ℤ) (st : PSState) (env : PriceEnv),
      cacheWF st →
      (getPrice ff now st env).quote.price = none →
      ((getPrice ff now st env).quote.source = "none" ∨
       (getPrice ff now st env).quote.source = "skipped")
      ∧ (getPrice ff now st env).quote.error ≠ none)
    ∧ (∀ (now : ℤ) (st : PSState) (env : PriceEnv) (c : Quote),
      pumpUsable env = false → env.jup = none → env.dex = none → st.cache = some c →
      (getPrice true now st env).quote = { c with stale := true })
    ∧ (∀ (env : PriceEnv) (now last : ℤ) (cnt : ℕ) (c : Quote),
      3 ≤ cnt → now - last < 60000 →
      getPrice false now ⟨some c, some ⟨cnt, last⟩⟩ env =
        ⟨c, ⟨some c, some ⟨cnt, last⟩⟩, false⟩) := by
  refine ⟨?_, ?_, ?_⟩
  · intro ff now st env hwf hp
    by_cases hn : (getPrice ff now st env).networkUsed = true
    · obtain ⟨st2, hcache, -, heq⟩ := getPrice_networkUsed_resolves ff now st env hn
      rw [heq] at hp ⊢
      have hwf2 : ∀ c, st2.cache = some c → c.price ≠ none := by
        intro c hc
        exact (hwf c (hcache ▸ hc)).1
      have := resolveSources_price_none now st2 env hwf2 hp
      exact ⟨Or.inl this.1, this.2⟩
    · rcases getPrice_no_network ff now st env (by simpa using hn) with ⟨c, hc, hq⟩ | hq
      · rw [hq] at hp
        exact absurd hp (hwf c hc).1
      · rw [hq]
        simp [skippedQuote]
  · intro now st env c hp hj hd hc
    rw [getPrice_forceFresh, resolveSources_all_miss now st env c hp hj hd hc]
  · intro env now last cnt c h3 hlt
    have hnr : ¬(60000 < now - last) := not_lt.mpr hlt.le
    simp [getPrice, hnr, h3]

theorem claim7_null_and_stale_quote_invariants_witness :
    (((getPrice false 0 ⟨none, none⟩ envAllMiss).quote.source = "none" ∨
      (getPrice false 0 ⟨none, none⟩ envAllMiss).quote.source = "skipped")
     ∧ (getPrice false 0 ⟨none, none⟩ envAllMiss).quote.error ≠ none)
    ∧ (getPrice true 0 ⟨some staleCacheQuote, none⟩ envAllMiss).quote
      = { staleCacheQuote with stale := true }
    ∧ getPrice false 1000 ⟨some staleCacheQuote, some ⟨3, 0⟩⟩ envAllMiss =
      ⟨staleCacheQuote, ⟨some staleCacheQuote, some ⟨3, 0⟩⟩, false⟩ := by
  refine ⟨?_, ?_, ?_⟩
  · exact claim7_null_and_stale_quote_invariants.1 false 0 ⟨none, none⟩ envAllMiss
      (by intro c h; cases h) (by norm_num [getPrice, resolveSources, resolveAfterPump,
        envAllMiss, noSourceQuote])
  · exact claim7_null_and_stale_quote_invariants.2.1 0 ⟨some staleCacheQuote, none⟩
      envAllMiss staleCacheQuote rfl rfl rfl rfl
  · exact claim7_null_and_stale_quote_invariants.2.2 envAllMiss 1000 0 3 staleCacheQuote
      (by norm_num) (by norm_num)

/-! ### Anti-rebuy lemmas -/

lemma exceptPure_eq {α : Type} (a : α) : (pure a : Except String α) = Except.ok a := rfl

lemma scanDays_ok_false (p : TradeRec → Bool) (days : List (Except String (List TradeRec)))
    (h : ∀ d ∈ days, ∃ l, d = .ok l ∧ ∀ t ∈ l, p t = false) :
    scanDays p days = .ok false := by
  induction days with
  | nil => rfl
  | cons d rest ih =>
    obtain ⟨l, hd, hl⟩ := h d (List.mem_cons_self d rest)
    have hany : l.any p = false := List.any_eq_false.mpr (by simpa using hl)
    rw [scanDays, hd]
    simp only [Bind.bind, Except.bind, hany, Bool.false_eq_true, if_false, ite_false]
    exact ih (fun d2 hd2 => h d2 (List.mem_cons_of_mem d hd2))

/-- C8: with a 300-second rebuy window, a close record for the same
instrument and wallet 30 seconds old rejects the signal with reason
rebuy_blocked, a record 400 seconds old (or any record outside the window)
does not, and the check also covers an open position sourced from the same
wallet; the history search spans the same-day list and the 7 prior days. -/
theorem claim8_rebuy_window :
    (∀ (cfg : StrategyConfig) (env : CopyEnv) (sig : CopySignal) (now : ℤ) (W : String)
        (l : List TradeRec),
      cfg.blockRebuys = true → cfg.rebuyWindow = 300 →
      sig.walletAddress = some W →
      (env.dryRun = true ∨ cfg.minWalletsToBuy ≤ sig.upvotes) →
      env.rebuyEnv.hasOpenPosition = .ok false →
      env.rebuyEnv.tradesToday = .ok l →
      (⟨sig.mint, W, now - 30000⟩ : TradeRec) ∈ l →
      shouldCopy cfg env sig now = { copy := false, reason := some "rebuy_blocked" })
    ∧ (∀ (env : RebuyEnv) (mint W : String) (window : ℕ) (now : ℤ) (hp : Bool)
        (ws : Option String) (l : List TradeRec),
      env.hasOpenPosition = .ok hp →
      env.positionWalletSource = .ok ws →
      (hp = true → ws ≠ some W) →
      env.tradesToday = .ok l →
      (∀ t ∈ l, t.mint = mint → t.walletSource = W →
        (window : ℤ) * 1000 ≤ now - t.closedAt) →
      (∀ i : Fin 7, ∃ li, env.tradesPrior i = .ok li ∧
        ∀ t ∈ li, t.mint = mint → t.walletSource = W →
          (window : ℤ) * 1000 ≤ now - t.closedAt) →
      isRebuySignal env mint (some W) window now = false)
    ∧ (∀ (env : RebuyEnv) (mint W : String) (window : ℕ) (now : ℤ),
      env.hasOpenPosition = .ok true →
      env.positionWalletSource = .ok (some W) →
      isRebuySignal env mint (some W) window now = true) := by
  refine ⟨?_, ?_, ?_⟩
  · intro cfg env sig now W l hbr hwin hW hlive hop htoday hmem
    have hmatch : tradeMatches sig.mint W cfg.rebuyWindow now ⟨sig.mint, W, now - 30000⟩
        = true := by
      simp [tradeMatches, hwin]
    have hex : ∃ t ∈ l, tradeMatches sig.mint W cfg.rebuyWindow now t = true :=
      ⟨_, hmem, hmatch⟩
    have hrb : isRebuySignal env.rebuyEnv sig.mint sig.walletAddress cfg.rebuyWindow now
        = true := by
      rw [hW]
      simp [isRebuySignal, isRebuyBody, hop, htoday, hex, Bind.bind, Except.bind,
        exceptPure_eq]
    have h1 : ¬(env.dryRun = false ∧ sig.upvotes < cfg.minWalletsToBuy) := by
      rcases hlive with h | h
      · simp [h]
      · rintro ⟨-, hlt⟩; omega
    simp [shouldCopy, shouldCopyBody, h1, hbr, hrb, Bind.bind, Except.bind, exceptPure_eq]
  · intro env mint W window now hp ws l hop hws h3 htoday hl hprior
    have hanyf : ∀ t ∈ l, ¬tradeMatches mint W window now t = true := by
      intro t ht
      simp only [tradeMatches, decide_eq_true_eq, not_and]
      intro hm hw
      have := hl t ht hm hw
      omega
    have hscan : scanDays (tradeMatches mint W window now)
        ((List.finRange 7).map env.tradesPrior) = .ok false := by
      apply scanDays_ok_false
      intro d hd
      obtain ⟨i, -, hi⟩ := List.mem_map.mp hd
      obtain ⟨li, hok, hli⟩ := hprior i
      refine ⟨li, by rw [← hi, hok], ?_⟩
      intro t ht
      simp only [tradeMatches]
      rw [decide_eq_false_iff_not]
      rintro ⟨hm, hw, hlt⟩
      have := hli t ht hm hw
      omega
    have hnex : ¬∃ x, x ∈ l ∧ tradeMatches mint W window now x = true :=
      fun ⟨x, hx, hpx⟩ => hanyf x hx hpx
    cases hp with
    | false =>
      simp [isRebuySignal, isRebuyBody, hop, htoday, hnex, hscan, Bind.bind, Except.bind,
        exceptPure_eq]
    | true =>
      have hne : ws ≠ some W := h3 rfl
      simp [isRebuySignal, isRebuyBody, hop, hws, hne, htoday, hnex, hscan, Bind.bind,
        Except.bind, exceptPure_eq]
  · intro env mint W window now hop hws
    simp [isRebuySignal, isRebuyBody, hop, hws, Bind.bind, Except.bind, exceptPure_eq]

theorem claim8_rebuy_window_witness :
    shouldCopy overlapCfg copyEnvRecent copySigW 0 =
      { copy := false, reason := some "rebuy_blocked" }
    ∧ isRebuySignal rebuyEnvOld "MINT" (some "W") 300 0 = false
    ∧ isRebuySignal rebuyEnvOpenW "MINT" (some "W") 300 0 = true := by
  refine ⟨?_, ?_, ?_⟩
  · exact claim8_rebuy_window.1 overlapCfg copyEnvRecent copySigW 0 "W"
      [⟨"MINT", "W", -30000⟩] rfl rfl rfl (Or.inl rfl) rfl rfl
      (by norm_num [copySigW, List.mem_singleton])
  · exact claim8_rebuy_window.2.1 rebuyEnvOld "MINT" "W" 300 0 false none
      [⟨"MINT", "W", -400000⟩] rfl rfl (by simp) rfl
      (by intro t ht _ _; simp at ht; subst ht; norm_num)
      (by intro i; exact ⟨[], rfl, by simp⟩)
  · exact claim8_rebuy_window.2.2 rebuyEnvOpenW "MINT" "W" 300 0 rfl rfl

/-- C10: the anti-rebuy guard fails open — a signal without an originating
wallet is never treated as a rebuy, and any store error (either directly in
the open-position lookup or anywhere in the guard body) makes the guard
answer false rather than block the entry. -/
theorem claim10_rebuy_fail_open :
    (∀ (env : RebuyEnv) (mint : String) (window : ℕ) (now : ℤ),
      isRebuySignal env mint none window now = false)
    ∧ (∀ (env : RebuyEnv) (mint W : String) (window : ℕ) (now : ℤ) (e : String),
      env.hasOpenPosition = .error e →
      isRebuySignal env mint (some W) window now = false)
    ∧ (∀ (env : RebuyEnv) (mint W : String) (window : ℕ) (now : ℤ) (e : String),
      isRebuyBody env mint W window now = .error e →
      isRebuySignal env mint (some W) window now = false) := by
  refine ⟨?_, ?_, ?_⟩
  · intro env mint window now
    rfl
  · intro env mint W window now e he
    simp [isRebuySignal, isRebuyBody, he, Bind.bind, Except.bind, exceptPure_eq]
  · intro env mint W window now e he
    simp [isRebuySignal, he]

theorem claim10_rebuy_fail_open_witness :
    isRebuySignal rebuyEnvOld "MINT" none 300 0 = false
    ∧ isRebuySignal rebuyEnvErr "MINT" (some "W") 300 0 = false
    ∧ isRebuySignal rebuyEnvErr "OTHER" (some "W") 300 0 = false := by
  refine ⟨?_, ?_, ?_⟩
  · exact claim10_rebuy_fail_open.1 rebuyEnvOld "MINT" 300 0
  · exact claim10_rebuy_fail_open.2.1 rebuyEnvErr "MINT" "W" 300 0
      "redis connection lost" rfl
  · exact claim10_rebuy_fail_open.2.2 rebuyEnvErr "OTHER" "W" 300 0
      "redis connection lost"
      (by simp [isRebuyBody, rebuyEnvErr, Bind.bind, Except.bind, exceptPure_eq])

/-! ### Execution client theorems -/

/-- C1 counterexample: the Lightning-API buy surfaces success = true with
tokensReceived = 0 for a transaction whose pre/post balance snapshots show
zero token and zero SOL movement for the signer — the same transaction that
the Local-API verification parser classifies as failed. -/
theorem claim1_counterexample_lightning_zero_movement :
    (lightningBuyToken "WALLET" false zeroMoveEnv "MINT" 1 (fun _ => 0) 0).1.success = true
    ∧ (lightningBuyToken "WALLET" false zeroMoveEnv "MINT" 1 (fun _ => 0) 0).1.tokensReceived
      = some 0
    ∧ (localParseTx "WALLET" zeroMoveTx).failed = true := by
  refine ⟨?_, ?_, ?_⟩ <;>
    norm_num [lightningBuyToken, lightningGetTxDetails, lightningParseTx, zeroMoveEnv,
      zeroMoveTx, localParseTx, tokensDeltaOf, solDeltaOf, walletIndexOf, List.find?,
      List.findIdx?, String.reduceEq]

/-- C1 (amended): the Local-API variant never reports success without
on-chain balance movement in the expected direction — a successful buy
carries tokensReceived > 0, a successful sell carries tokensSold > 0 and
solReceived > 0, and its parseTx classifies a transaction with zero token
delta and zero SOL delta for the signer as failed; the Lightning-API variant
does not share this guarantee (see the counterexample). -/
theorem claim1_local_verified_movement :
    (∀ (wallet : String) (env : ExecEnv) (mint : String) (amt : ℚ) (rng : ℕ → Fin 16)
        (now : ℤ),
      (localBuyToken wallet false env mint amt rng now).1.success = true →
      ∃ q, (localBuyToken wallet false env mint amt rng now).1.tokensReceived = some q
        ∧ 0 < q)
    ∧ (∀ (wallet : String) (env : ExecEnv) (mint : String) (amtF : TokensField)
        (rng : ℕ → Fin 16) (now : ℤ),
      (localSellToken wallet false env mint amtF rng now).1.success = true →
      ∃ q r, (localSellToken wallet false env mint amtF rng now).1.tokensSold
          = some (.num q) ∧ 0 < q
        ∧ (localSellToken wallet false env mint amtF rng now).1.solReceived = some r
        ∧ 0 < r)
    ∧ (∀ (wallet : String) (tx : TxRecord) (m : TxMeta),
      tx.meta = some m → tokensDeltaOf m = 0 → solDeltaOf wallet tx m = 0 →
      (localParseTx wallet tx).failed = true) := by
  refine ⟨?_, ?_, ?_⟩
  · intro wallet env mint amt rng now h
    simp only [localBuyToken, Bool.false_eq_true, if_false, ite_false] at h ⊢
    rcases hs : env.send with e | sig <;> simp only [hs] at h ⊢
    · simp at h
    · by_cases hf : (localGetTxDetails wallet env).failed = true
      · rw [if_pos hf] at h; simp at h
      · rw [if_neg hf] at h ⊢
        by_cases hq : (localGetTxDetails wallet env).tokensReceived ≤ 0
        · rw [if_pos hq] at h; simp at h
        · rw [if_neg hq] at h ⊢
          exact ⟨(localGetTxDetails wallet env).tokensReceived, rfl, lt_of_not_le hq⟩
  · intro wallet env mint amtF rng now h
    simp only [localSellToken, Bool.false_eq_true, if_false, ite_false] at h ⊢
    rcases hs : env.send with e | sig <;> simp only [hs] at h ⊢
    · simp at h
    · by_cases hf : (localGetTxDetails wallet env).failed = true
      · rw [if_pos hf] at h; simp at h
      · rw [if_neg hf] at h ⊢
        by_cases hq : (localGetTxDetails wallet env).tokensSold ≤ 0
        · rw [if_pos hq] at h; simp at h
        · rw [if_neg hq] at h ⊢
          by_cases hr : (localGetTxDetails wallet env).solReceived ≤ 0
          · rw [if_pos hr] at h; simp at h
          · rw [if_neg hr] at h ⊢
            exact ⟨(localGetTxDetails wallet env).tokensSold,
              (localGetTxDetails wallet env).solReceived, rfl, lt_of_not_le hq, rfl,
              lt_of_not_le hr⟩
  · intro wallet tx m hm ht hsol
    simp only [localParseTx, hm]
    by_cases he : m.err = true
    · rw [if_pos he]
    · rw [if_neg he]
      norm_num [ht, hsol]

theorem claim1_local_verified_movement_witness :
    ((localBuyToken "WALLET" false goodBuyEnv "MINT" 1 (fun _ => 0) 0).1.success = true
      ∧ ∃ q, (localBuyToken "WALLET" false goodBuyEnv "MINT" 1 (fun _ => 0) 0).1.tokensReceived
          = some q ∧ 0 < q)
    ∧ (∃ q r, (localSellToken "WALLET" false goodSellEnv "MINT" (.pct "100%")
          (fun _ => 0) 0).1.tokensSold = some (.num q) ∧ 0 < q
        ∧ (localSellToken "WALLET" false goodSellEnv "MINT" (.pct "100%")
            (fun _ => 0) 0).1.solReceived = some r ∧ 0 < r)
    ∧ (localParseTx "OTHERWALLET" zeroMoveTx).failed = true := by
  have hbuy : (localBuyToken "WALLET" false goodBuyEnv "MINT" 1
      (fun _ => 0) 0).1.success = true := by
    norm_num [localBuyToken, localGetTxDetails, localParseTx, goodBuyEnv, goodBuyTx,
      tokensDeltaOf, solDeltaOf, walletIndexOf, List.find?, List.findIdx?, String.reduceEq]
  have hsell : (localSellToken "WALLET" false goodSellEnv "MINT" (.pct "100%")
      (fun _ => 0) 0).1.success = true := by
    norm_num [localSellToken, localGetTxDetails, localParseTx, goodSellEnv, goodSellTx,
      tokensDeltaOf, solDeltaOf, walletIndexOf, List.find?, List.findIdx?, String.reduceEq]
  refine ⟨⟨hbuy, ?_⟩, ?_, ?_⟩
  · exact claim1_local_verified_movement.1 "WALLET" goodBuyEnv "MINT" 1 (fun _ => 0) 0 hbuy
  · exact claim1_local_verified_movement.2.1 "WALLET" goodSellEnv "MINT" (.pct "100%")
      (fun _ => 0) 0 hsell
  · exact claim1_local_verified_movement.2.2 "OTHERWALLET" zeroMoveTx _ rfl
      (by norm_num [tokensDeltaOf, zeroMoveTx, List.find?])
      (by simp [solDeltaOf, zeroMoveTx, walletIndexOf, List.findIdx?, String.reduceEq])

/-- C9 counterexample: two dry-run buys with identical arguments draw fresh
randomness for `fakeSignature` and return different signatures, so the
results are not identical. -/
theorem claim9_counterexample_dry_run_signature :
    (simulateBuy "MINT" 1 (fun _ => 0) 0).signature
      ≠ (simulateBuy "MINT" 1 (fun _ => 1) 0).signature
    ∧ simulateBuy "MINT" 1 (fun _ => 0) 0 ≠ simulateBuy "MINT" 1 (fun _ => 1) 0 := by
  have h : (simulateBuy "MINT" 1 (fun _ => 0) 0).signature
      ≠ (simulateBuy "MINT" 1 (fun _ => 1) 0).signature := by decide
  exact ⟨h, fun he => h (congrArg ExecResult.signature he)⟩

/-- C9 (amended): dry-run buy and sell perform no network calls and return
the synthetic result computed from the fixed notional price 0.000001; all
trade fields (success, solSpent, tokensReceived, tokensSold, solReceived)
are deterministic functions of the arguments, while the signature is drawn
from fresh randomness and the timestamp is the call time. -/
theorem claim9_dry_run_deterministic_fields :
    (∀ (wallet mint : String) (env : ExecEnv) (amt : ℚ) (rng rng2 : ℕ → Fin 16) (t t2 : ℤ),
      (localBuyToken wallet true env mint amt rng t).2 = false
      ∧ (localBuyToken wallet true env mint amt rng t).1 = simulateBuy mint amt rng t
      ∧ (lightningBuyToken wallet true env mint amt rng t).2 = false
      ∧ (lightningBuyToken wallet true env mint amt rng t).1 = simulateBuy mint amt rng t
      ∧ (simulateBuy mint amt rng t).success = (simulateBuy mint amt rng2 t2).success
      ∧ (simulateBuy mint amt rng t).solSpent = (simulateBuy mint amt rng2 t2).solSpent
      ∧ (simulateBuy mint amt rng t).tokensReceived
        = (simulateBuy mint amt rng2 t2).tokensReceived
      ∧ (simulateBuy mint amt rng t).tokensReceived = some (amt / FIXED_NOTIONAL_PRICE))
    ∧ (∀ (wallet mint : String) (env : ExecEnv) (amtF : TokensField) (rng rng2 : ℕ → Fin 16)
        (t t2 : ℤ),
      (localSellToken wallet true env mint amtF rng t).2 = false
      ∧ (localSellToken wallet true env mint amtF rng t).1 = simulateSell mint amtF rng t
      ∧ (simulateSell mint amtF rng t).success = (simulateSell mint amtF rng2 t2).success
      ∧ (simulateSell mint amtF rng t).tokensSold = (simulateSell mint amtF rng2 t2).tokensSold
      ∧ (simulateSell mint amtF rng t).solReceived
        = (simulateSell mint amtF rng2 t2).solReceived) := by
  constructor
  · intro wallet mint env amt rng rng2 t t2
    exact ⟨rfl, rfl, rfl, rfl, rfl, rfl, rfl, rfl⟩
  · intro wallet mint env amtF rng rng2 t t2
    cases amtF <;> exact ⟨rfl, rfl, rfl, rfl, rfl⟩

end Ultimo
